import Mathlib

/-!
Shallow embedding of the module resolution, loading and sandboxing subsystem
of `src/module_loader.rs` (struct `RustyLoader` and its helpers).

External collaborators (deno_core's URL resolution, the filesystem, the
network, and the transpiler from `crate::transpiler`, which is not part of
the loader) are modelled as explicit inputs:
* the output of `deno_core::resolve_import` is passed to `resolve` as an
  `Option Url` (`none` models the `Err` case propagated by `?`);
* the filesystem read (`std::fs::read_to_string`), the network fetch
  (`reqwest::get(...).text()`) and `transpiler::transpile` are fields of a
  `World` record.
Compile-time cargo features `url_import` and `fs_import` are Booleans in a
`Features` record.  Machine state mutated through interior mutability
(the whitelist `Mutex<HashSet<String>>`, the cache provider) is passed
explicitly.  Fetch and transpile invocation counters are threaded through
the load state to make "the Fetcher / Transpiler was not invoked"
observable, as the spec's test properties demand.
-/

namespace RustyScript

/-- Rust's `str::starts_with(pat)`: the pattern is a prefix of the string
(defined over the character lists so that it evaluates by kernel
reduction). -/
def strStartsWith (s pat : String) : Bool := pat.data.isPrefixOf s.data

/-- Rust's `str::ends_with(pat)`: the pattern is a suffix of the string. -/
def strEndsWith (s pat : String) : Bool := pat.data.isSuffixOf s.data

/-- Error values produced by the loader (the Rust code builds them with
`anyhow!`; we keep one constructor per distinct message shape). -/
inductive LoadError where
  /-- `resolve_import` failed (propagated by `?` in `resolve`). -/
  | resolutionFailed
  /-- "web imports are not allowed here: {specifier}" -/
  | webImportsNotAllowed (specifier : String)
  /-- "requested module is not loaded: {specifier}" -/
  | requestedModuleNotLoaded (specifier : String)
  /-- "unrecognized schema for module import: {specifier}" -/
  | unrecognizedSchema (specifier : String)
  /-- "Provided module specifier ... is not a file URL." -/
  | notAFileUrl (specifier : String)
  /-- an I/O failure from `std::fs::read_to_string` or `reqwest` -/
  | ioFailure (msg : String)
  /-- a failure propagated from `transpiler::transpile` -/
  | transpileFailed (msg : String)
  /-- "{scheme} imports are not allowed here: {specifier}" (from `load`) -/
  | schemeNotAllowed (scheme : String) (specifier : String)
deriving DecidableEq, Repr

/-- A resolved module specifier (`deno_core::ModuleSpecifier`, i.e. a URL).
`resolve_import` is external to the loader, so a `Url` simply records the
results of the accessor methods the loader calls: `url.scheme()`,
`url.path()`, `url.as_str()` and `url.to_file_path()` (the latter returns
`none` when the URL cannot be mapped to a local path). -/
structure Url where
  scheme : String
  path : String
  asStr : String
  toFilePath : Option String
deriving DecidableEq, Repr

/-- Build/deployment configuration: the cargo features consumed by the
loader, fixed at construction. -/
structure Features where
  url_import : Bool
  fs_import : Bool
deriving DecidableEq, Repr

/-- State owned by `RustyLoader` for resolution: the whitelist
`fs_whlist: Mutex<HashSet<String>>`.  `poisoned` models the case in which
`fs_whlist.lock()` returns `Err` because a previous panic poisoned the
mutex; both whitelist operations branch on it exactly as the source
branches on `if let Ok(..) = self.fs_whlist.lock()`. -/
structure LoaderState where
  fs_whlist : List String
  poisoned : Bool
deriving DecidableEq, Repr

/-- `RustyLoader::whitelist_add`: insert the specifier if the lock is
acquired; on a poisoned lock (`lock()` returns `Err`) do nothing. -/
def whitelist_add (st : LoaderState) (specifier : String) : LoaderState :=
  if st.poisoned then st
  else { st with fs_whlist := st.fs_whlist.insert specifier }

/-- `RustyLoader::whitelist_has`: membership if the lock is acquired;
`false` on a poisoned lock. -/
def whitelist_has (st : LoaderState) (specifier : String) : Bool :=
  if st.poisoned then false
  else st.fs_whlist.contains specifier

/-- The policy `match url.scheme()` of `RustyLoader::resolve`, evaluated
after the root-whitelisting side effect (it reads but never writes the
whitelist; every arm either falls through to `Ok(url)` or early-returns an
error).  The `cfg` attributes on the feature gates are modelled by the
Boolean feature flags. -/
def resolve_policy (ft : Features) (st : LoaderState) (specifier : String)
    (url : Url) : Except LoadError Url :=
  if url.scheme == "https" || url.scheme == "http" then
    if ft.url_import then .ok url
    else .error (.webImportsNotAllowed specifier)
  else if url.scheme == "file" then
    if !ft.fs_import && !whitelist_has st url.asStr then
      .error (.requestedModuleNotLoaded specifier)
    else .ok url
  else if strStartsWith specifier "ext:" then
    .ok url
  else
    .error (.unrecognizedSchema specifier)

/-- `RustyLoader::resolve`.  `resolveImport` is the result of the external
`deno_core::resolve_import(specifier, referrer)` (`none` = `Err`, which
`?` propagates).  When the referrer is the root sentinel `"."` the
resolved locator string is added to the whitelist before the policy match
runs. -/
def resolve (ft : Features) (st : LoaderState) (specifier referrer : String)
    (resolveImport : Option Url) : Except LoadError Url × LoaderState :=
  match resolveImport with
  | none => (.error .resolutionFailed, st)
  | some url =>
    let st := if referrer == "." then whitelist_add st url.asStr else st
    (resolve_policy ft st specifier url, st)

/-- `deno_core::ModuleType` (the variants this loader produces). -/
inductive ModuleType where
  | javaScript
  | json
deriving DecidableEq, Repr

/-- `deno_core::ModuleSource` as constructed by this loader:
`ModuleSource::new(module_type, ModuleSourceCode::String(code), specifier,
code_cache)`; the loader always passes `None` for the code cache. -/
structure ModuleSource where
  module_type : ModuleType
  code : String
  specifier : String
  code_cache : Option String
deriving DecidableEq, Repr

/-- The backing store of `DefaultModuleCacheProvider`
(`RefCell<HashMap<ModuleSpecifier, ModuleSource>>`), as an association
list keyed by the specifier. -/
abbrev CacheMap := List (Url × ModuleSource)

/-- `DefaultModuleCacheProvider::get` (the `clone_source` copy is the
identity under value semantics). -/
def cache_get (c : CacheMap) (specifier : Url) : Option ModuleSource :=
  (List.find? (fun e => e.1 == specifier) c).map (fun e => e.2)

/-- `DefaultModuleCacheProvider::set`: `HashMap::insert`, overwriting any
previous entry for the key. -/
def cache_set (c : CacheMap) (specifier : Url) (source : ModuleSource) :
    CacheMap :=
  (specifier, source) :: List.filter (fun e => !(e.1 == specifier)) c

/-- External collaborators used by the load paths: the filesystem fetch,
the network fetch, and `transpiler::transpile` (crate code outside the
loader).  Each returns `Except` like the fallible Rust calls. -/
structure World where
  read_to_string : String → Except LoadError String
  http_get_text : String → Except LoadError String
  transpile : String → String → Except LoadError String

/-- Mutable state visible to `load`: the optional cache provider
(`none` = no provider was injected), plus invocation counters for the
Fetcher and the Transpiler (the observables of the spec's test
properties; the Rust code has no counters, they only count our calls into
`World`). -/
structure LoadState where
  cache : Option CacheMap
  fetchCount : Nat
  transpileCount : Nat
deriving Repr

/-- Cache consultation shared by both load paths:
`cache_provider.as_ref().map(|p| p.get(&specifier))` matched against
`Some(Some(source))`. -/
def cache_lookup (st : LoadState) (specifier : Url) : Option ModuleSource :=
  st.cache.bind (fun c => cache_get c specifier)

/-- `load_from_file`: cache-first, then classify the module type by the
`.json` path suffix, map the URL to a local path, read the file, transpile,
and build the `ModuleSource`.  Note: the source never calls
`cache_provider.set`, so the cache map in the state is returned untouched;
and `transpile` is invoked on the fetched text regardless of the module
type. -/
def load_from_file (w : World) (module_specifier : Url) (st : LoadState) :
    Except LoadError ModuleSource × LoadState :=
  match cache_lookup st module_specifier with
  | some source => (.ok source, st)
  | none =>
    let module_type :=
      if strEndsWith module_specifier.path ".json" then ModuleType.json
      else ModuleType.javaScript
    match module_specifier.toFilePath with
    | none => (.error (.notAFileUrl module_specifier.asStr), st)
    | some path =>
      let st := { st with fetchCount := st.fetchCount + 1 }
      match w.read_to_string path with
      | .error e => (.error e, st)
      | .ok code =>
        let st := { st with transpileCount := st.transpileCount + 1 }
        match w.transpile module_specifier.asStr code with
        | .error e => (.error e, st)
        | .ok code =>
          (.ok ⟨module_type, code, module_specifier.asStr, none⟩, st)

/-- `load_from_url` (compiled only under the `url_import` feature; `load`
below only reaches it when that feature is on): cache-first, classify by
`.json` suffix, fetch over HTTP, transpile, build the record.  Like the
file path it never populates the cache. -/
def load_from_url (w : World) (module_specifier : Url) (st : LoadState) :
    Except LoadError ModuleSource × LoadState :=
  match cache_lookup st module_specifier with
  | some source => (.ok source, st)
  | none =>
    let module_type :=
      if strEndsWith module_specifier.path ".json" then ModuleType.json
      else ModuleType.javaScript
    let st := { st with fetchCount := st.fetchCount + 1 }
    match w.http_get_text module_specifier.asStr with
    | .error e => (.error e, st)
    | .ok code =>
      let st := { st with transpileCount := st.transpileCount + 1 }
      match w.transpile module_specifier.asStr code with
      | .error e => (.error e, st)
      | .ok code =>
        (.ok ⟨module_type, code, module_specifier.asStr, none⟩, st)

/-- `RustyLoader::load`: dispatch purely on the locator scheme.  The
`https`/`http` arm exists only under the `url_import` feature (a `cfg` on
the match arm): without it those schemes fall through to the catch-all
rejection, exactly as in the source. -/
def load (ft : Features) (w : World) (module_specifier : Url)
    (st : LoadState) : Except LoadError ModuleSource × LoadState :=
  if (module_specifier.scheme == "https" || module_specifier.scheme == "http")
      && ft.url_import then
    load_from_url w module_specifier st
  else if module_specifier.scheme == "file" then
    load_from_file w module_specifier st
  else
    (.error (.schemeNotAllowed module_specifier.scheme module_specifier.asStr),
     st)

/-- A concrete URL for tests: `file:///app/main.js`. -/
def mainJs : Url :=
  ⟨"file", "/app/main.js", "file:///app/main.js", some "/app/main.js"⟩

/-- A concrete URL for tests: `file:///app/lib.js`. -/
def libJs : Url :=
  ⟨"file", "/app/lib.js", "file:///app/lib.js", some "/app/lib.js"⟩

/-- A concrete URL for tests: `ftp://example/mod.js`. -/
def ftpMod : Url :=
  ⟨"ftp", "/mod.js", "ftp://example/mod.js", none⟩

/-- A concrete world whose filesystem returns a fixed payload and whose
transpiler is the identity. -/
def testWorld : World :=
  ⟨fun _ => .ok "export default 1;",
   fun _ => .ok "export default 2;",
   fun _ code => .ok code⟩

/-- A concrete URL for tests: the internal extension module
`ext:rustyscript`. -/
def extUrl : Url :=
  ⟨"ext", "rustyscript", "ext:rustyscript", none⟩

/-- A concrete URL for tests: `https://example.com/mod.js`. -/
def httpsMod : Url :=
  ⟨"https", "/mod.js", "https://example.com/mod.js", none⟩

/-- A concrete URL for tests: `file:///app/data.json`. -/
def dataJson : Url :=
  ⟨"file", "/app/data.json", "file:///app/data.json", some "/app/data.json"⟩

/-- A concrete URL for tests: `https://example.com/data.json`. -/
def httpsData : Url :=
  ⟨"https", "/data.json", "https://example.com/data.json", none⟩

/-- A concrete world whose filesystem holds a JSON array payload. -/
def jsonWorld : World :=
  ⟨fun _ => .ok "[1, 2, 3]",
   fun _ => .ok "[4, 5, 6]",
   fun _ code => .ok code⟩

/-! ## Helper lemmas (shared across the claim theorems) -/

/-- The state returned by `resolve` is the input state, updated by the
root-whitelisting side effect only. -/
theorem resolve_snd (ft : Features) (st : LoaderState)
    (specifier referrer : String) (url : Url) :
    (resolve ft st specifier referrer (some url)).2 =
      if referrer == "." then whitelist_add st url.asStr else st := rfl

/-- The value returned by `resolve` is the policy verdict evaluated in the
post-side-effect state. -/
theorem resolve_fst (ft : Features) (st : LoaderState)
    (specifier referrer : String) (url : Url) :
    (resolve ft st specifier referrer (some url)).1 =
      resolve_policy ft
        (if referrer == "." then whitelist_add st url.asStr else st)
        specifier url := rfl

/-- After an (unpoisoned) `whitelist_add`, the added entry is present. -/
theorem whitelist_has_add_self (st : LoaderState) (s : String)
    (hp : st.poisoned = false) :
    whitelist_has (whitelist_add st s) s = true := by
  simp [whitelist_add, whitelist_has, hp, List.contains, List.elem_iff]

/-- `whitelist_add` never removes entries. -/
theorem whitelist_has_mono_add (st : LoaderState) (s t : String)
    (h : whitelist_has st s = true) :
    whitelist_has (whitelist_add st t) s = true := by
  unfold whitelist_has whitelist_add at *
  cases hp : st.poisoned with
  | true => simp [hp] at h
  | false =>
    simp only [hp, if_false, Bool.false_eq_true] at h ⊢
    simp only [List.contains, List.elem_iff] at h ⊢
    exact List.mem_insert_iff.mpr (Or.inr h)

/-- A true `whitelist_has` implies the lock is not poisoned. -/
theorem whitelist_has_not_poisoned (st : LoaderState) (s : String)
    (h : whitelist_has st s = true) : st.poisoned = false := by
  unfold whitelist_has at h
  cases hp : st.poisoned with
  | true => simp [hp] at h
  | false => rfl

/-! ## Claim theorems -/

/-- C2: resolving any specifier with the root-sentinel referrer `"."` adds
the resolved locator string to the whitelist (conjunct 1), and the policy
match is evaluated only afterwards, against the already-updated whitelist
(conjunct 2) — so the locator is whitelisted regardless of its scheme and
regardless of whether the policy verdict is `Ok` or an error. -/
theorem C2_root_load_whitelists (ft : Features) (st : LoaderState)
    (specifier : String) (url : Url) (hp : st.poisoned = false) :
    whitelist_has (resolve ft st specifier "." (some url)).2 url.asStr = true ∧
    (resolve ft st specifier "." (some url)).1 =
      resolve_policy ft (whitelist_add st url.asStr) specifier url := by
  refine ⟨?_, rfl⟩
  rw [resolve_snd]
  simp only [beq_self_eq_true, if_true]
  exact whitelist_has_add_self st url.asStr hp

/-- Witness for C2: a root resolve of `ftp://example/mod.js` is rejected by
policy, yet its locator is whitelisted by the side effect. -/
theorem C2_root_load_whitelists_witness :
    whitelist_has
      (resolve ⟨false, false⟩ ⟨[], false⟩ "ftp://example/mod.js" "."
        (some ftpMod)).2 ftpMod.asStr = true :=
  (C2_root_load_whitelists ⟨false, false⟩ ⟨[], false⟩ "ftp://example/mod.js"
    ftpMod rfl).1

/-- C7: a resolved locator whose scheme is none of `http`, `https`, `file`,
for a raw specifier that does not start with `ext:`, is rejected by
`resolve` with the unrecognized-scheme error. -/
theorem C7_unrecognized_scheme_rejected (ft : Features) (st : LoaderState)
    (specifier referrer : String) (url : Url)
    (h1 : url.scheme ≠ "http") (h2 : url.scheme ≠ "https")
    (h3 : url.scheme ≠ "file") (h4 : strStartsWith specifier "ext:" = false) :
    (resolve ft st specifier referrer (some url)).1 =
      .error (.unrecognizedSchema specifier) := by
  rw [resolve_fst]
  simp [resolve_policy, h1, h2, h3, h4]

/-- Witness for C7: `resolve("ftp://example/mod.js", root)` fails with the
unrecognized-scheme error. -/
theorem C7_unrecognized_scheme_rejected_witness :
    (resolve ⟨true, true⟩ ⟨[], false⟩ "ftp://example/mod.js" "."
      (some ftpMod)).1 =
      .error (.unrecognizedSchema "ftp://example/mod.js") :=
  C7_unrecognized_scheme_rejected ⟨true, true⟩ ⟨[], false⟩
    "ftp://example/mod.js" "." ftpMod
    (by decide) (by decide) (by decide) (by decide)

/-- C8: `whitelist_has` is a total function (it cannot panic), and on a
poisoned lock (`fs_whlist.lock()` returning `Err`) it conservatively
answers `false`, whatever the underlying set contains. -/
theorem C8_whitelist_has_poisoned_false (st : LoaderState) (specifier : String)
    (hp : st.poisoned = true) : whitelist_has st specifier = false := by
  simp [whitelist_has, hp]

/-- Witness for C8: with a poisoned lock, membership of an entry that is in
the underlying set still reports `false`. -/
theorem C8_whitelist_has_poisoned_false_witness :
    whitelist_has ⟨["file:///app/main.js"], true⟩ "file:///app/main.js" =
      false :=
  C8_whitelist_has_poisoned_false ⟨["file:///app/main.js"], true⟩
    "file:///app/main.js" rfl

/-- C9: the whitelist is insertion-only and monotonic: (1) `whitelist_add`
of an entry already in the underlying set leaves the state unchanged
(idempotence); (2) `whitelist_add` never removes an entry; (3) `resolve`
never removes an entry.  (`load` and `whitelist_has` do not touch the
whitelist at all: `load` operates only on the cache/counter state and
`whitelist_has` is a pure read, as in the source.) -/
theorem C9_whitelist_monotonic :
    (∀ (st : LoaderState) (s : String), st.fs_whlist.contains s = true →
        whitelist_add st s = st) ∧
    (∀ (st : LoaderState) (s t : String), whitelist_has st s = true →
        whitelist_has (whitelist_add st t) s = true) ∧
    (∀ (ft : Features) (st : LoaderState) (specifier referrer : String)
        (ri : Option Url) (s : String), whitelist_has st s = true →
        whitelist_has (resolve ft st specifier referrer ri).2 s = true) := by
  refine ⟨?_, whitelist_has_mono_add, ?_⟩
  · intro st s h
    obtain ⟨l, p⟩ := st
    have hm : s ∈ l := by
      rw [← List.elem_iff]
      exact h
    cases p <;> simp [whitelist_add, List.insert_of_mem hm]
  · intro ft st specifier referrer ri s h
    cases ri with
    | none => exact h
    | some url =>
      rw [resolve_snd]
      by_cases hr : (referrer == ".") = true
      · rw [if_pos hr]
        exact whitelist_has_mono_add st s url.asStr h
      · rw [if_neg hr]
        exact h

/-- Witness for C9: idempotent re-add of a present entry, and preservation
of membership across a root resolve of a different module. -/
theorem C9_whitelist_monotonic_witness :
    whitelist_add ⟨["file:///app/main.js"], false⟩ "file:///app/main.js" =
        ⟨["file:///app/main.js"], false⟩ ∧
    whitelist_has
      (resolve ⟨false, false⟩ ⟨["file:///app/main.js"], false⟩ "./lib.js"
        "." (some libJs)).2 "file:///app/main.js" = true :=
  ⟨C9_whitelist_monotonic.1 ⟨["file:///app/main.js"], false⟩
      "file:///app/main.js" (by decide),
   C9_whitelist_monotonic.2.2 ⟨false, false⟩ ⟨["file:///app/main.js"], false⟩
      "./lib.js" "." (some libJs) "file:///app/main.js" (by decide)⟩

/-- C10: the internal-extension allowance keys on the raw specifier string,
not on the resolved locator's scheme: with a locator of the internal `ext`
scheme, a specifier that does not literally start with `ext:` is rejected
with the unrecognized-scheme error, while a specifier that does start with
`ext:` is permitted. -/
theorem C10_ext_allowance_keys_on_specifier (ft : Features) (st : LoaderState)
    (specifier referrer : String) (url : Url) (hs : url.scheme = "ext") :
    (strStartsWith specifier "ext:" = false →
        (resolve ft st specifier referrer (some url)).1 =
          .error (.unrecognizedSchema specifier)) ∧
    (strStartsWith specifier "ext:" = true →
        (resolve ft st specifier referrer (some url)).1 = .ok url) := by
  constructor <;> intro h <;> rw [resolve_fst] <;>
    simp [resolve_policy, hs, h]

/-- Witness for C10: a relative specifier `./helper.js` resolved against an
`ext:`-scheme referrer to an `ext`-scheme locator is rejected, while the
literal specifier `ext:rustyscript` resolving to the same scheme is
permitted. -/
theorem C10_ext_allowance_keys_on_specifier_witness :
    (resolve ⟨false, false⟩ ⟨[], false⟩ "./helper.js" "ext:rustyscript"
        (some ⟨"ext", "helper.js", "ext:helper.js", none⟩)).1 =
      .error (.unrecognizedSchema "./helper.js") ∧
    (resolve ⟨false, false⟩ ⟨[], false⟩ "ext:rustyscript" "file:///app/main.js"
        (some extUrl)).1 = .ok extUrl :=
  ⟨(C10_ext_allowance_keys_on_specifier ⟨false, false⟩ ⟨[], false⟩
      "./helper.js" "ext:rustyscript" ⟨"ext", "helper.js", "ext:helper.js", none⟩
      rfl).1 (by decide),
   (C10_ext_allowance_keys_on_specifier ⟨false, false⟩ ⟨[], false⟩
      "ext:rustyscript" "file:///app/main.js" extUrl rfl).2 (by decide)⟩

/-- C1 (counterexample): the claim as stated quantifies over *all*
specifier/referrer pairs; but for the root-sentinel referrer `"."` the
root-whitelisting side effect runs before the policy check, so a `file`
locator not in the whitelist at call time resolves successfully even with
`fs_import` off. -/
theorem C1_counterexample :
    whitelist_has ⟨[], false⟩ mainJs.asStr = false ∧
    (resolve ⟨false, false⟩ ⟨[], false⟩ "file:///app/main.js" "."
      (some mainJs)).1 = .ok mainJs :=
  ⟨rfl, rfl⟩

/-- C1 (amended): with `fs_import` off and a *non-root* referrer, a `file`
locator that the whitelist does not report as present is rejected with the
policy-denial error, and one the whitelist reports as present resolves
successfully to the locator. -/
theorem C1_restricted_fs_containment (u : Bool) (st : LoaderState)
    (specifier referrer : String) (url : Url)
    (hroot : referrer ≠ ".") (hscheme : url.scheme = "file") :
    (whitelist_has st url.asStr = false →
        (resolve ⟨u, false⟩ st specifier referrer (some url)).1 =
          .error (.requestedModuleNotLoaded specifier)) ∧
    (whitelist_has st url.asStr = true →
        (resolve ⟨u, false⟩ st specifier referrer (some url)).1 = .ok url) := by
  have hr : (referrer == ".") = false := by
    simp [hroot]
  constructor <;> intro h <;> rw [resolve_fst, hr] <;>
    simp [resolve_policy, hscheme, h]

/-- Witness for C1 (amended): under an empty whitelist the transitive
load of `./lib.js` from `file:///app/main.js` is denied; once
`file:///app/lib.js` is in the whitelist the same resolution succeeds. -/
theorem C1_restricted_fs_containment_witness :
    (resolve ⟨false, false⟩ ⟨[], false⟩ "./lib.js" "file:///app/main.js"
        (some libJs)).1 = .error (.requestedModuleNotLoaded "./lib.js") ∧
    (resolve ⟨false, false⟩ ⟨["file:///app/lib.js"], false⟩ "./lib.js"
        "file:///app/main.js" (some libJs)).1 = .ok libJs :=
  ⟨(C1_restricted_fs_containment false ⟨[], false⟩ "./lib.js"
      "file:///app/main.js" libJs (by decide) rfl).1 (by decide),
   (C1_restricted_fs_containment false ⟨["file:///app/lib.js"], false⟩
      "./lib.js" "file:///app/main.js" libJs (by decide) rfl).2 (by decide)⟩

/-- C3: the load paths never call `cache_provider.set`, so the cache is
never populated by `load`.  With a cache provider present (an empty cache
map), a first successful `load_from_file` leaves the cache empty, and a
second identical load invokes the Fetcher and the Transpiler again
(both counters reach 2) instead of being served from the cache. -/
theorem C3_cache_never_populated :
    (load_from_file testWorld mainJs ⟨some [], 0, 0⟩).1 =
        .ok ⟨.javaScript, "export default 1;", "file:///app/main.js", none⟩ ∧
    (load_from_file testWorld mainJs ⟨some [], 0, 0⟩).2.cache = some [] ∧
    (load_from_file testWorld mainJs
        (load_from_file testWorld mainJs ⟨some [], 0, 0⟩).2).1 =
      (load_from_file testWorld mainJs ⟨some [], 0, 0⟩).1 ∧
    (load_from_file testWorld mainJs
        (load_from_file testWorld mainJs ⟨some [], 0, 0⟩).2).2.fetchCount = 2 ∧
    (load_from_file testWorld mainJs
        (load_from_file testWorld mainJs ⟨some [], 0, 0⟩).2).2.transpileCount =
      2 :=
  ⟨rfl, rfl, rfl, rfl, rfl⟩

/-- C4: when the cache provider reports a hit for a locator, `load`
returns the cached record unchanged and leaves the whole load state —
including the fetch and transpile counters — untouched, so neither the
Fetcher nor the Transpiler is invoked.  The scheme hypothesis restricts
the statement to the schemes `load` dispatches to a fetch path at all
(`file` always; `https`/`http` under the `url_import` feature): for any
other scheme `load` rejects before consulting the cache. -/
theorem C4_cache_hit_no_fetch (ft : Features) (w : World) (url : Url)
    (st : LoadState) (source : ModuleSource)
    (h : cache_lookup st url = some source)
    (hd : url.scheme = "file" ∨
      ((url.scheme = "https" ∨ url.scheme = "http") ∧ ft.url_import = true)) :
    load ft w url st = (.ok source, st) := by
  have hfile : load_from_file w url st = (.ok source, st) := by
    unfold load_from_file
    rw [h]
  have hurl : load_from_url w url st = (.ok source, st) := by
    unfold load_from_url
    rw [h]
  rcases hd with hf | ⟨hh, hu⟩
  · rw [load, if_neg, if_pos]
    · exact hfile
    · simp [hf]
    · simp [hf]
  · rw [load, if_pos]
    · exact hurl
    · rcases hh with h1 | h1 <;> simp [h1, hu]

/-- Witness for C4: a pre-populated cache entry for `file:///app/main.js`
is returned as-is, with both invocation counters still zero. -/
theorem C4_cache_hit_no_fetch_witness :
    load ⟨false, false⟩ testWorld mainJs
        ⟨some [(mainJs, ⟨.javaScript, "cached", "file:///app/main.js", none⟩)],
         0, 0⟩ =
      (.ok ⟨.javaScript, "cached", "file:///app/main.js", none⟩,
       ⟨some [(mainJs, ⟨.javaScript, "cached", "file:///app/main.js", none⟩)],
        0, 0⟩) :=
  C4_cache_hit_no_fetch ⟨false, false⟩ testWorld mainJs
    ⟨some [(mainJs, ⟨.javaScript, "cached", "file:///app/main.js", none⟩)],
     0, 0⟩
    ⟨.javaScript, "cached", "file:///app/main.js", none⟩ rfl (Or.inl rfl)

/-- C5 (counterexample): loading `file:///app/data.json` (no cache
provider) succeeds with the JSON module kind, yet the Transpiler *is*
invoked on its payload — the transpile counter is 1, not 0: the source
calls `transpiler::transpile` on the fetched text regardless of the module
type. -/
theorem C5_counterexample :
    (load_from_file jsonWorld dataJson ⟨none, 0, 0⟩).1 =
        .ok ⟨.json, "[1, 2, 3]", "file:///app/data.json", none⟩ ∧
    (load_from_file jsonWorld dataJson ⟨none, 0, 0⟩).2.transpileCount = 1 :=
  ⟨rfl, rfl⟩

/-- C5 (amended): on a cache miss, a successful load of a locator whose
path ends in `.json` — through either fetch path, `load_from_file` or
`load_from_url` (the latter is what `load` dispatches to for network
locators under the `url_import` feature) — produces a record of the JSON
(structured-data) module kind, but its payload is passed through the
Transpiler exactly like a script payload (the transpile counter
increments by one); module kind does not gate transpilation. -/
theorem C5_json_classification (w : World) (url : Url) (st : LoadState)
    (source : ModuleSource)
    (hjson : strEndsWith url.path ".json" = true)
    (hmiss : cache_lookup st url = none) :
    ((load_from_file w url st).1 = .ok source →
      source.module_type = .json ∧
      (load_from_file w url st).2.transpileCount = st.transpileCount + 1) ∧
    ((load_from_url w url st).1 = .ok source →
      source.module_type = .json ∧
      (load_from_url w url st).2.transpileCount = st.transpileCount + 1) := by
  constructor
  · intro hok
    cases hpath : url.toFilePath with
    | none =>
      have hload : (load_from_file w url st).1 = .error (.notAFileUrl url.asStr) := by
        unfold load_from_file
        simp only [hmiss, hpath]
      rw [hload] at hok
      exact Except.noConfusion hok
    | some path =>
      cases hread : w.read_to_string path with
      | error e =>
        have hload : (load_from_file w url st).1 = .error e := by
          unfold load_from_file
          simp only [hmiss, hpath, hread]
        rw [hload] at hok
        exact Except.noConfusion hok
      | ok code =>
        cases htr : w.transpile url.asStr code with
        | error e =>
          have hload : (load_from_file w url st).1 = .error e := by
            unfold load_from_file
            simp only [hmiss, hpath, hread, htr]
          rw [hload] at hok
          exact Except.noConfusion hok
        | ok code2 =>
          have hload : load_from_file w url st =
              (.ok ⟨.json, code2, url.asStr, none⟩,
               ⟨st.cache, st.fetchCount + 1, st.transpileCount + 1⟩) := by
            unfold load_from_file
            simp only [hmiss, hpath, hread, htr, hjson, if_true]
          rw [hload] at hok
          have h2 : ModuleSource.mk .json code2 url.asStr none = source :=
            Except.ok.inj hok
          rw [hload]
          exact ⟨by rw [← h2], rfl⟩
  · intro hok
    cases hget : w.http_get_text url.asStr with
    | error e =>
      have hload : (load_from_url w url st).1 = .error e := by
        unfold load_from_url
        simp only [hmiss, hget]
      rw [hload] at hok
      exact Except.noConfusion hok
    | ok code =>
      cases htr : w.transpile url.asStr code with
      | error e =>
        have hload : (load_from_url w url st).1 = .error e := by
          unfold load_from_url
          simp only [hmiss, hget, htr]
        rw [hload] at hok
        exact Except.noConfusion hok
      | ok code2 =>
        have hload : load_from_url w url st =
            (.ok ⟨.json, code2, url.asStr, none⟩,
             ⟨st.cache, st.fetchCount + 1, st.transpileCount + 1⟩) := by
          unfold load_from_url
          simp only [hmiss, hget, htr, hjson, if_true]
        rw [hload] at hok
        have h2 : ModuleSource.mk .json code2 url.asStr none = source :=
          Except.ok.inj hok
        rw [hload]
        exact ⟨by rw [← h2], rfl⟩

/-- Witness for C5 (amended): both halves instantiated — the filesystem
load of `file:///app/data.json` and the network load of
`https://example.com/data.json`, each yielding a JSON-kind record with
the transpile counter incremented. -/
theorem C5_json_classification_witness :
    ((⟨.json, "[1, 2, 3]", "file:///app/data.json", none⟩ :
        ModuleSource).module_type = .json ∧
      (load_from_file jsonWorld dataJson ⟨none, 0, 0⟩).2.transpileCount =
        0 + 1) ∧
    ((⟨.json, "[4, 5, 6]", "https://example.com/data.json", none⟩ :
        ModuleSource).module_type = .json ∧
      (load_from_url jsonWorld httpsData ⟨none, 0, 0⟩).2.transpileCount =
        0 + 1) :=
  ⟨(C5_json_classification jsonWorld dataJson ⟨none, 0, 0⟩
      ⟨.json, "[1, 2, 3]", "file:///app/data.json", none⟩
      (by decide) rfl).1 rfl,
   (C5_json_classification jsonWorld httpsData ⟨none, 0, 0⟩
      ⟨.json, "[4, 5, 6]", "https://example.com/data.json", none⟩
      (by decide) rfl).2 rfl⟩

/-- C6 (counterexample): the specifier `ext:rustyscript` passes `resolve`
(internal-extension allowance), but `load` on the resulting `ext`-scheme
locator fails with the scheme-not-permitted rejection — so not every
locator returned by `resolve` is dispatchable by `load`. -/
theorem C6_counterexample :
    (resolve ⟨false, false⟩ ⟨[], false⟩ "ext:rustyscript" "."
        (some extUrl)).1 = .ok extUrl ∧
    (load ⟨false, false⟩ testWorld extUrl ⟨some [], 0, 0⟩).1 =
      .error (.schemeNotAllowed "ext" "ext:rustyscript") :=
  ⟨rfl, rfl⟩

/-- C6 (amended): every locator returned by `resolve` whose scheme is
`file`, `https` or `http` is dispatched by `load` to the corresponding
fetch path (never the scheme-not-permitted rejection); only locators
admitted through the `ext:` specifier allowance are rejected by `load`.
For `https`/`http` the `Ok` outcome of `resolve` itself forces the
`url_import` feature on, which is exactly the condition under which
`load`'s network arm exists. -/
theorem C6_resolved_locator_dispatchable (ft : Features) (w : World)
    (st : LoaderState) (lst : LoadState) (specifier referrer : String)
    (url : Url)
    (hok : (resolve ft st specifier referrer (some url)).1 = .ok url)
    (hs : url.scheme = "file" ∨ url.scheme = "https" ∨ url.scheme = "http") :
    load ft w url lst = load_from_file w url lst ∨
    load ft w url lst = load_from_url w url lst := by
  rcases hs with hf | hh
  · left
    rw [load, if_neg, if_pos]
    · simp [hf]
    · simp [hf]
  · right
    have hu : ft.url_import = true := by
      rw [resolve_fst] at hok
      unfold resolve_policy at hok
      rcases hh with h1 | h1 <;> rw [h1] at hok <;>
        cases hui : ft.url_import <;> simp [hui] at hok <;> rfl
    rw [load, if_pos]
    rcases hh with h1 | h1 <;> simp [h1, hu]

/-- Witness for C6 (amended): a successfully resolved
`https://example.com/mod.js` under the `url_import` feature is dispatched
by `load` to the network fetch path. -/
theorem C6_resolved_locator_dispatchable_witness :
    load ⟨true, false⟩ testWorld httpsMod ⟨none, 0, 0⟩ =
        load_from_file testWorld httpsMod ⟨none, 0, 0⟩ ∨
    load ⟨true, false⟩ testWorld httpsMod ⟨none, 0, 0⟩ =
      load_from_url testWorld httpsMod ⟨none, 0, 0⟩ :=
  C6_resolved_locator_dispatchable ⟨true, false⟩ testWorld ⟨[], false⟩
    ⟨none, 0, 0⟩ "https://example.com/mod.js" "." httpsMod rfl
    (Or.inr (Or.inl rfl))

end RustyScript
